import Mathlib

/-!
Shallow embedding of the Crescendo download-job orchestration core
(services/jobqueue.go, websocket/hub.go, websocket/client.go, types/job.go,
types/websocket.go) together with theorems checking the specification's
claims about it.

Conventions of the embedding:
* Go maps are association lists with Go-map update semantics.
* `time.Now()` is an explicit `now : Nat` argument threaded into each
  operation that stamps a time.
* `uuid.New().String()` is an explicit `newId : String` argument; its
  freshness (the uuid library's uniqueness guarantee) appears as a
  hypothesis where a claim depends on it.
* float64 percentages are modelled as exact rationals `ℚ`; all concrete
  percentage computations used in theorems stay on small integers where Go
  float64 arithmetic is exact.  (Division by zero differs: Go produces
  NaN/Inf where `ℚ` produces 0; no theorem below relies on that case.)
* `hub.BroadcastProgress` hands a `ProgressMessage` to the Broadcast Hub;
  the registry state records the list of messages handed over in `events`.
* The Hub's subscriber registry is a list of `Client` records; a client's
  bounded `send` channel is a list bounded by `sendCap` (256 in
  `NewClient`).
-/

namespace Crescendo

/-- types/job.go: JobType. -/
inductive JobType where
  | album
  | track
  | artist
deriving DecidableEq, Repr

/-- types/job.go: JobStatus. -/
inductive JobStatus where
  | queued
  | processing
  | completed
  | failed
  | cancelled
deriving DecidableEq, Repr

/-- The string value underlying each JobStatus constant (types/job.go). -/
def JobStatus.str : JobStatus → String
  | .queued => "queued"
  | .processing => "processing"
  | .completed => "completed"
  | .failed => "failed"
  | .cancelled => "cancelled"

/-- types/job.go: DownloadJob. -/
structure DownloadJob where
  id : String
  type : JobType
  status : JobStatus
  itemID : String
  title : String
  artist : String
  progress : Int
  total : Int
  error : String
  createdAt : Nat
  startedAt : Option Nat
  completedAt : Option Nat
deriving DecidableEq, Repr

/-- types/websocket.go: ProgressMessage (the `Progress` field is the
percentage, documented in the source as "0-100 percentage"). -/
structure ProgressMessage where
  jobID : String
  type : String
  progress : ℚ
  status : String
  currentFile : String
  speed : String
  message : String
  timestamp : Nat
deriving DecidableEq, Repr

/-- Go-map lookup on an association list (`job, exists := jq.jobs[id]`). -/
def lookupJob (jobs : List (String × DownloadJob)) (id : String) : Option DownloadJob :=
  (jobs.find? (fun p => p.1 = id)).map Prod.snd

/-- Go-map store on an association list (`jq.jobs[id] = job`). -/
def insertJob : List (String × DownloadJob) → String → DownloadJob → List (String × DownloadJob)
  | [], id, j => [(id, j)]
  | (k, v) :: rest, id, j =>
      if k = id then (id, j) :: rest else (k, v) :: insertJob rest id j

/-- State of the jobQueue (services/jobqueue.go): the `jobs` map, the
dispatch `queue` (the buffered channel, held as the ids in flight), the
`activeJobs` map (held as its key set), and the list of messages handed to
the hub via `BroadcastProgress`. -/
structure JobQueueState where
  jobs : List (String × DownloadJob)
  queue : List String
  activeJobs : List String
  events : List ProgressMessage
deriving DecidableEq, Repr

/-- The empty registry produced by NewJobQueue. -/
def newJobQueue : JobQueueState :=
  { jobs := [], queue := [], activeJobs := [], events := [] }

/-- services/jobqueue.go: AddJob.  `newId` stands for `uuid.New().String()`
and `now` for `time.Now()`. -/
def addJob (st : JobQueueState) (newId : String) (jobType : JobType)
    (itemID title artist : String) (now : Nat) : JobQueueState × DownloadJob :=
  let job : DownloadJob :=
    { id := newId
      type := jobType
      status := .queued
      itemID := itemID
      title := title
      artist := artist
      progress := 0
      total := 1
      error := ""
      createdAt := now
      startedAt := none
      completedAt := none }
  ({ st with jobs := insertJob st.jobs newId job, queue := st.queue ++ [newId] }, job)

/-- services/jobqueue.go: GetJob. -/
def getJob (st : JobQueueState) (id : String) : Option DownloadJob :=
  lookupJob st.jobs id

/-- services/jobqueue.go: GetAllJobs (map iteration order collapsed to the
association list's order). -/
def getAllJobs (st : JobQueueState) : List DownloadJob :=
  st.jobs.map Prod.snd

/-- services/jobqueue.go: CancelJob. -/
def cancelJob (st : JobQueueState) (id : String) (now : Nat) : JobQueueState × Bool :=
  match lookupJob st.jobs id with
  | none => (st, false)
  | some job =>
      if job.status = .queued then
        let job' := { job with status := .cancelled, completedAt := some now }
        ({ st with jobs := insertJob st.jobs id job' }, true)
      else
        (st, false)

/-- services/jobqueue.go: UpdateJobProgress.  The hub is always non-nil in
this model, so the broadcast happens exactly when `total > 0`. -/
def updateJobProgress (st : JobQueueState) (id : String) (progress total : Int)
    (now : Nat) : JobQueueState :=
  match lookupJob st.jobs id with
  | none => st
  | some job =>
      let job' := { job with progress := progress, total := total }
      let st' := { st with jobs := insertJob st.jobs id job' }
      if 0 < total then
        let progressPercent : ℚ := (progress : ℚ) / (total : ℚ) * 100
        let currentFile : String :=
          if progress < total then
            "Track " ++ toString (progress + 1) ++ " of " ++ toString total
          else ""
        let msg : ProgressMessage :=
          { jobID := id
            type := "progress"
            progress := progressPercent
            status := job'.status.str
            currentFile := currentFile
            speed := ""
            message := "Downloaded " ++ toString progress ++ " of " ++ toString total ++ " tracks"
            timestamp := now }
        { st' with events := st'.events ++ [msg] }
      else st'

/-- services/jobqueue.go: SetJobStatus.  The Go default-then-override
if/else-if chain for msgType/progress/message is written as three
equivalent if/else-if chains. -/
def setJobStatus (st : JobQueueState) (id : String) (status : JobStatus)
    (errorMsg : String) (now : Nat) : JobQueueState :=
  match lookupJob st.jobs id with
  | none => st
  | some job =>
      let job1 := { job with status := status }
      let job2 := if errorMsg ≠ "" then { job1 with error := errorMsg } else job1
      let job3 :=
        if status = .processing ∧ job2.startedAt = none then
          { job2 with startedAt := some now }
        else if status = .completed ∨ status = .failed ∨ status = .cancelled then
          { job2 with completedAt := some now }
        else job2
      let active :=
        if status = .processing ∧ job2.startedAt = none then
          st.activeJobs ++ [id]
        else if status = .completed ∨ status = .failed ∨ status = .cancelled then
          st.activeJobs.filter (fun a => a ≠ id)
        else st.activeJobs
      let msgType : String :=
        if status = .completed then "complete"
        else if status = .failed then "error"
        else "status"
      let message : String :=
        if status = .completed then job3.title ++ " download completed"
        else if status = .failed then errorMsg
        else if status = .processing then "Started downloading " ++ job3.title
        else status.str
      let progressPercent : ℚ :=
        if status = .completed then 100
        else (job3.progress : ℚ) / (job3.total : ℚ) * 100
      let msg : ProgressMessage :=
        { jobID := id
          type := msgType
          progress := progressPercent
          status := status.str
          currentFile := ""
          speed := ""
          message := message
          timestamp := now }
      { st with
        jobs := insertJob st.jobs id job3
        activeJobs := active
        events := st.events ++ [msg] }

/-- api.Track as consumed by processTrackJob (title/artist metadata). -/
structure Track where
  title : String
  artist : String
deriving DecidableEq, Repr

/-- api.Album as consumed by processAlbumJob. -/
structure Album where
  title : String
  artist : String
  tracks : List String
deriving DecidableEq, Repr

/-- api.Artist as consumed by processArtistJob. -/
structure Artist where
  name : String
  albums : List String
deriving DecidableEq, Repr

/-- The external content provider (the `api` package, an external
collaborator per the spec): metadata resolution and blocking retrieval for
each job type.  Failures carry the provider's error message string. -/
structure ContentAPI where
  newTrack : String → Except String Track
  trackDownload : Track → Except String Unit
  newAlbum : String → Except String Album
  albumDownload : Album → Except String Unit
  newArtist : String → Except String Artist
  artistDownload : Artist → Except String Unit

/-- `job.Title = t; job.Artist = a` through the worker's shared pointer
into the registry record. -/
def setTitleArtist (jobs : List (String × DownloadJob)) (id title artist : String) :
    List (String × DownloadJob) :=
  match lookupJob jobs id with
  | none => jobs
  | some job => insertJob jobs id { job with title := title, artist := artist }

/-- services/jobqueue.go: processTrackJob.  Returns the new state and the
error the function returns to the worker (None on success).  Error
wrapping follows the source's fmt.Errorf calls. -/
def processTrackJob (api : ContentAPI) (st : JobQueueState) (id itemID : String)
    (now : Nat) : JobQueueState × Option String :=
  match api.newTrack itemID with
  | .error e => (st, some ("failed to get track metadata: " ++ e))
  | .ok track =>
      let st1 := { st with jobs := setTitleArtist st.jobs id track.title track.artist }
      let st2 := updateJobProgress st1 id 0 1 now
      match api.trackDownload track with
      | .error e => (st2, some ("failed to download track: " ++ e))
      | .ok _ => (updateJobProgress st2 id 1 1 now, none)

/-- services/jobqueue.go: processAlbumJob.  Note `album.Download`'s error
is returned to the worker unwrapped. -/
def processAlbumJob (api : ContentAPI) (st : JobQueueState) (id itemID : String)
    (now : Nat) : JobQueueState × Option String :=
  match api.newAlbum itemID with
  | .error e => (st, some ("failed to get album metadata: " ++ e))
  | .ok album =>
      let st1 := { st with jobs := setTitleArtist st.jobs id album.title album.artist }
      let st2 := updateJobProgress st1 id 0 (album.tracks.length : Int) now
      match api.albumDownload album with
      | .error e => (st2, some e)
      | .ok _ => (st2, none)

/-- services/jobqueue.go: processArtistJob.  As for albums, the download
error is returned unwrapped. -/
def processArtistJob (api : ContentAPI) (st : JobQueueState) (id itemID : String)
    (now : Nat) : JobQueueState × Option String :=
  match api.newArtist itemID with
  | .error e => (st, some ("failed to get artist metadata: " ++ e))
  | .ok artist =>
      let st1 := { st with
        jobs := setTitleArtist st.jobs id (artist.name ++ " (Discography)") artist.name }
      let st2 := updateJobProgress st1 id 0 (artist.albums.length : Int) now
      match api.artistDownload artist with
      | .error e => (st2, some e)
      | .ok _ => (st2, none)

/-- One iteration of the worker loop (services/jobqueue.go: worker) on the
dequeued job `id`: skip if already cancelled, otherwise mark processing,
run the type-specific processor, then record failed (with the error text)
or completed. -/
def workerStep (api : ContentAPI) (st : JobQueueState) (id : String) (now : Nat) :
    JobQueueState :=
  match lookupJob st.jobs id with
  | none => st
  | some job =>
      if job.status = .cancelled then st
      else
        let st1 := setJobStatus st id .processing "" now
        let res :=
          match job.type with
          | .album => processAlbumJob api st1 id job.itemID now
          | .track => processTrackJob api st1 id job.itemID now
          | .artist => processArtistJob api st1 id job.itemID now
        match res.2 with
        | some e => setJobStatus res.1 id .failed e now
        | none => setJobStatus res.1 id .completed "" now

/-- websocket/client.go: a client connection.  `send` holds the contents
of the buffered delivery channel (capacity `sendCap`); `closed` records
`close(client.send)`; `cid` models the identity of the Go `*Client`
pointer. -/
structure Client where
  cid : Nat
  jobID : String
  send : List ProgressMessage
  sendCap : Nat
  closed : Bool
deriving DecidableEq, Repr

/-- websocket/client.go: NewClient — empty delivery queue of capacity 256. -/
def NewClient (cid : Nat) (jobID : String) : Client :=
  { cid := cid, jobID := jobID, send := [], sendCap := 256, closed := false }

/-- The hub's subscriber registry (websocket/hub.go: `clients`), flattened
from map[jobID]set-of-clients to the list of registered clients: a client
is registered under key `k` iff it is in the list with `jobID = k`. -/
structure HubState where
  clients : List Client
deriving DecidableEq, Repr

/-- hub.Run's non-blocking enqueue
`select { case client.send <- message: default: ... }`:
delivery succeeds iff the buffered channel has room. -/
def trySend (c : Client) (m : ProgressMessage) : Option Client :=
  if c.send.length < c.sendCap then some { c with send := c.send ++ [m] } else none

/-- One delivery pass of hub.Run's broadcast case over the clients
registered under `key`: a client with queue room gets the message; a
full one is removed from the registry and its queue closed.  Returns the
surviving registry and the dropped clients. -/
def deliverKey (cs : List Client) (key : String) (m : ProgressMessage) :
    List Client × List Client :=
  (cs.filterMap (fun c => if c.jobID = key then trySend c m else some c),
   (cs.filter (fun c => c.jobID = key ∧ ¬ c.send.length < c.sendCap)).map
     (fun c => { c with closed := true }))

/-- hub.Run's broadcast case (websocket/hub.go): deliver to the clients
registered under the message's job id, then to the clients registered
under "all".  Returns the new registry and the dropped clients. -/
def fanOut (h : HubState) (m : ProgressMessage) : HubState × List Client :=
  let p1 := deliverKey h.clients m.jobID m
  let p2 := deliverKey p1.1 "all" m
  ({ clients := p2.1 }, p1.2 ++ p2.2)

/-! ### Association-list (Go map) lemmas -/

theorem lookupJob_insertJob_self (jobs : List (String × DownloadJob)) (id : String)
    (j : DownloadJob) : lookupJob (insertJob jobs id j) id = some j := by
  induction jobs with
  | nil => simp [insertJob, lookupJob]
  | cons p rest ih =>
      obtain ⟨k, v⟩ := p
      by_cases h : k = id
      · simp [insertJob, h, lookupJob]
      · simpa [insertJob, h, lookupJob, List.find?] using ih

theorem lookupJob_insertJob_ne (jobs : List (String × DownloadJob)) (id id' : String)
    (j : DownloadJob) (h : id' ≠ id) :
    lookupJob (insertJob jobs id j) id' = lookupJob jobs id' := by
  induction jobs with
  | nil => simp [insertJob, lookupJob, List.find?, Ne.symm h]
  | cons p rest ih =>
      obtain ⟨k, v⟩ := p
      simp only [insertJob]
      by_cases hk : k = id
      · subst hk
        simp [lookupJob, List.find?, Ne.symm h]
      · by_cases hk' : k = id'
        · simp [if_neg hk, lookupJob, List.find?, hk', h]
        · simpa [if_neg hk, lookupJob, List.find?, hk'] using ih

theorem insertJob_of_lookup_none (jobs : List (String × DownloadJob)) (id : String)
    (j : DownloadJob) (h : lookupJob jobs id = none) :
    insertJob jobs id j = jobs ++ [(id, j)] := by
  induction jobs with
  | nil => simp [insertJob]
  | cons p rest ih =>
      obtain ⟨k, v⟩ := p
      by_cases hk : k = id
      · simp [lookupJob, List.find?, hk] at h
      · have h' : lookupJob rest id = none := by
          simpa [lookupJob, List.find?, hk] using h
        simp [insertJob, hk, ih h']

theorem lookup_mem_getAllJobs (st : JobQueueState) (id : String) (job : DownloadJob)
    (h : lookupJob st.jobs id = some job) : job ∈ getAllJobs st := by
  cases hfind : st.jobs.find? (fun p => p.1 = id) with
  | none => simp [lookupJob, hfind] at h
  | some p =>
      have hp : p ∈ st.jobs := List.mem_of_find?_eq_some hfind
      have hj : p.2 = job := by simpa [lookupJob, hfind] using h
      rw [← hj]
      exact List.mem_map_of_mem Prod.snd hp

/-! ### Concrete states used by witnesses and counterexamples -/

/-- A registry holding one freshly added track job "job1". -/
def exSt1 : JobQueueState := (addJob newJobQueue "job1" .track "it1" "t" "a" 0).1

/-- The record AddJob returned for "job1". -/
def exJob1 : DownloadJob := (addJob newJobQueue "job1" .track "it1" "t" "a" 0).2

/-- exSt1 after SetJobStatus("job1", completed, ""): a terminal job. -/
def exSt2 : JobQueueState := setJobStatus exSt1 "job1" .completed "" 1

/-- The stored record of "job1" inside exSt2. -/
def exJob2 : DownloadJob := { exJob1 with status := .completed, completedAt := some 1 }

/-! ### C1 -/

/-- C1: CancelJob(id) returns true iff a job with identifier id exists and
its state at the moment of the call is exactly queued; when it returns
true the job's state becomes cancelled and its completion timestamp is
set; when the id is unknown or the state is anything other than queued it
returns false and the state (hence the job record) is left unchanged. -/
theorem cancelJob_correct (st : JobQueueState) (id : String) (now : Nat) :
    ((cancelJob st id now).2 = true ↔
      ∃ job, getJob st id = some job ∧ job.status = .queued)
  ∧ (∀ job, getJob st id = some job → job.status = .queued →
      getJob (cancelJob st id now).1 id =
        some { job with status := .cancelled, completedAt := some now })
  ∧ ((cancelJob st id now).2 = false → (cancelJob st id now).1 = st) := by
  refine ⟨⟨?_, ?_⟩, ?_, ?_⟩
  · intro htrue
    cases hl : lookupJob st.jobs id with
    | none => simp [cancelJob, hl] at htrue
    | some job =>
        by_cases hq : job.status = .queued
        · exact ⟨job, hl, hq⟩
        · simp [cancelJob, hl, hq] at htrue
  · rintro ⟨job, hl, hq⟩
    have hl' : lookupJob st.jobs id = some job := hl
    simp [cancelJob, hl', hq]
  · intro job hl hq
    have hl' : lookupJob st.jobs id = some job := hl
    simp [cancelJob, hl', hq, getJob, lookupJob_insertJob_self]
  · intro hfalse
    cases hl : lookupJob st.jobs id with
    | none => simp [cancelJob, hl]
    | some job =>
        by_cases hq : job.status = .queued
        · simp [cancelJob, hl, hq] at hfalse
        · simp [cancelJob, hl, hq]

/-- C1 witness: cancelling the freshly queued "job1" succeeds and stamps
the completion time. -/
theorem cancelJob_correct_witness :
    getJob (cancelJob exSt1 "job1" 7).1 "job1" =
      some { exJob1 with status := JobStatus.cancelled, completedAt := some 7 } :=
  (cancelJob_correct exSt1 "job1" 7).2.1 exJob1 (by decide) (by decide)

/-! ### C9 -/

/-- C9: AddJob creates and returns a job record bearing the freshly
generated id, state queued, progress 0, total 1, creation timestamp now,
no start timestamp and no completion timestamp; it appends a brand-new
record to the registry, enqueues the id onto the dispatch queue, and
hands no event to the hub. -/
theorem addJob_correct (st : JobQueueState) (newId : String) (jt : JobType)
    (itemID title artist : String) (now : Nat)
    (hfresh : getJob st newId = none) :
    ((addJob st newId jt itemID title artist now).2.id = newId)
  ∧ ((addJob st newId jt itemID title artist now).2.status = .queued)
  ∧ ((addJob st newId jt itemID title artist now).2.progress = 0)
  ∧ ((addJob st newId jt itemID title artist now).2.total = 1)
  ∧ ((addJob st newId jt itemID title artist now).2.createdAt = now)
  ∧ ((addJob st newId jt itemID title artist now).2.startedAt = none)
  ∧ ((addJob st newId jt itemID title artist now).2.completedAt = none)
  ∧ ((addJob st newId jt itemID title artist now).1.jobs
      = st.jobs ++ [(newId, (addJob st newId jt itemID title artist now).2)])
  ∧ ((addJob st newId jt itemID title artist now).1.queue = st.queue ++ [newId])
  ∧ ((addJob st newId jt itemID title artist now).1.events = st.events) := by
  have hfresh' : lookupJob st.jobs newId = none := hfresh
  refine ⟨rfl, rfl, rfl, rfl, rfl, rfl, rfl, ?_, rfl, rfl⟩
  exact insertJob_of_lookup_none st.jobs newId _ hfresh'

/-- C9 witness: adding a job to the empty registry. -/
theorem addJob_correct_witness :
    ((addJob newJobQueue "w9" .album "a9" "T" "A" 4).2.status = .queued)
  ∧ ((addJob newJobQueue "w9" .album "a9" "T" "A" 4).1.queue
      = newJobQueue.queue ++ ["w9"])
  ∧ ((addJob newJobQueue "w9" .album "a9" "T" "A" 4).1.events = newJobQueue.events) := by
  have h := addJob_correct newJobQueue "w9" .album "a9" "T" "A" 4 (by decide)
  exact ⟨h.2.1, h.2.2.2.2.2.2.2.2.1, h.2.2.2.2.2.2.2.2.2⟩

/-! ### C10 -/

/-- C10: UpdateJobProgress and SetJobStatus called with a job identifier
not present in the registry are silent no-ops: the whole state (records,
dispatch queue, events handed to the hub) is unchanged and no error is
signalled. -/
theorem unknown_job_noop (st : JobQueueState) (id : String) (p t : Int)
    (s : JobStatus) (e : String) (now : Nat)
    (h : getJob st id = none) :
    updateJobProgress st id p t now = st ∧ setJobStatus st id s e now = st := by
  have h' : lookupJob st.jobs id = none := h
  constructor <;> simp [updateJobProgress, setJobStatus, h']

/-- C10 witness: mutations aimed at an id unknown to the one-job registry
leave it untouched. -/
theorem unknown_job_noop_witness :
    updateJobProgress exSt1 "ghost" 1 2 3 = exSt1
  ∧ setJobStatus exSt1 "ghost" .failed "boom" 3 = exSt1 :=
  unknown_job_noop exSt1 "ghost" 1 2 .failed "boom" 3 (by decide)

/-! ### Characterization of SetJobStatus and UpdateJobProgress on an
existing job -/

theorem setJobStatus_getJob_status (st : JobQueueState) (id : String) (s : JobStatus)
    (e : String) (now : Nat) (job : DownloadJob)
    (hjob : lookupJob st.jobs id = some job) :
    (getJob (setJobStatus st id s e now) id).map DownloadJob.status = some s := by
  simp only [getJob, setJobStatus, hjob, lookupJob_insertJob_self, Option.map_some']
  split_ifs <;> rfl

theorem setJobStatus_getJob_error (st : JobQueueState) (id : String) (s : JobStatus)
    (e : String) (now : Nat) (job : DownloadJob)
    (hjob : lookupJob st.jobs id = some job) :
    (getJob (setJobStatus st id s e now) id).map DownloadJob.error
      = some (if e = "" then job.error else e) := by
  simp only [getJob, setJobStatus, hjob, lookupJob_insertJob_self, Option.map_some']
  split_ifs <;> simp_all

theorem setJobStatus_events_dropLast (st : JobQueueState) (id : String) (s : JobStatus)
    (e : String) (now : Nat) (job : DownloadJob)
    (hjob : lookupJob st.jobs id = some job) :
    (setJobStatus st id s e now).events.dropLast = st.events := by
  simp only [setJobStatus, hjob]
  exact List.dropLast_concat

theorem setJobStatus_events_length (st : JobQueueState) (id : String) (s : JobStatus)
    (e : String) (now : Nat) (job : DownloadJob)
    (hjob : lookupJob st.jobs id = some job) :
    (setJobStatus st id s e now).events.length = st.events.length + 1 := by
  simp [setJobStatus, hjob]

theorem setJobStatus_events_last_jobID (st : JobQueueState) (id : String) (s : JobStatus)
    (e : String) (now : Nat) (job : DownloadJob)
    (hjob : lookupJob st.jobs id = some job) :
    (setJobStatus st id s e now).events.getLast?.map ProgressMessage.jobID = some id := by
  simp only [setJobStatus, hjob, List.getLast?_concat, Option.map_some']

theorem setJobStatus_events_last_type (st : JobQueueState) (id : String) (s : JobStatus)
    (e : String) (now : Nat) (job : DownloadJob)
    (hjob : lookupJob st.jobs id = some job) :
    (setJobStatus st id s e now).events.getLast?.map ProgressMessage.type
      = some (if s = .completed then "complete"
              else if s = .failed then "error" else "status") := by
  simp only [setJobStatus, hjob, List.getLast?_concat, Option.map_some']

theorem setJobStatus_events_last_message (st : JobQueueState) (id : String) (s : JobStatus)
    (e : String) (now : Nat) (job : DownloadJob)
    (hjob : lookupJob st.jobs id = some job) :
    (setJobStatus st id s e now).events.getLast?.map ProgressMessage.message
      = some (if s = .completed then job.title ++ " download completed"
              else if s = .failed then e
              else if s = .processing then "Started downloading " ++ job.title
              else s.str) := by
  simp only [setJobStatus, hjob, List.getLast?_concat, Option.map_some']
  split_ifs <;> rfl

theorem setJobStatus_events_last_progress (st : JobQueueState) (id : String) (s : JobStatus)
    (e : String) (now : Nat) (job : DownloadJob)
    (hjob : lookupJob st.jobs id = some job) :
    (setJobStatus st id s e now).events.getLast?.map ProgressMessage.progress
      = some (if s = .completed then (100 : ℚ)
              else (job.progress : ℚ) / (job.total : ℚ) * 100) := by
  simp only [setJobStatus, hjob, List.getLast?_concat, Option.map_some']
  split_ifs <;> rfl

theorem updateJobProgress_jobs (st : JobQueueState) (id : String) (p t : Int)
    (now : Nat) (job : DownloadJob)
    (hjob : lookupJob st.jobs id = some job) (ht : 0 < t) :
    (updateJobProgress st id p t now).jobs
      = insertJob st.jobs id { job with progress := p, total := t } := by
  simp only [updateJobProgress, hjob, if_pos ht]

theorem updateJobProgress_events_dropLast (st : JobQueueState) (id : String) (p t : Int)
    (now : Nat) (job : DownloadJob)
    (hjob : lookupJob st.jobs id = some job) (ht : 0 < t) :
    (updateJobProgress st id p t now).events.dropLast = st.events := by
  simp only [updateJobProgress, hjob, if_pos ht]
  exact List.dropLast_concat

theorem updateJobProgress_events_length (st : JobQueueState) (id : String) (p t : Int)
    (now : Nat) (job : DownloadJob)
    (hjob : lookupJob st.jobs id = some job) (ht : 0 < t) :
    (updateJobProgress st id p t now).events.length = st.events.length + 1 := by
  simp [updateJobProgress, hjob, if_pos ht]

theorem updateJobProgress_events_last_jobID (st : JobQueueState) (id : String) (p t : Int)
    (now : Nat) (job : DownloadJob)
    (hjob : lookupJob st.jobs id = some job) (ht : 0 < t) :
    (updateJobProgress st id p t now).events.getLast?.map ProgressMessage.jobID
      = some id := by
  simp only [updateJobProgress, hjob, if_pos ht, List.getLast?_concat, Option.map_some']

theorem updateJobProgress_events_last_type (st : JobQueueState) (id : String) (p t : Int)
    (now : Nat) (job : DownloadJob)
    (hjob : lookupJob st.jobs id = some job) (ht : 0 < t) :
    (updateJobProgress st id p t now).events.getLast?.map ProgressMessage.type
      = some "progress" := by
  simp only [updateJobProgress, hjob, if_pos ht, List.getLast?_concat, Option.map_some']

theorem updateJobProgress_events_last_progress (st : JobQueueState) (id : String) (p t : Int)
    (now : Nat) (job : DownloadJob)
    (hjob : lookupJob st.jobs id = some job) (ht : 0 < t) :
    (updateJobProgress st id p t now).events.getLast?.map ProgressMessage.progress
      = some ((p : ℚ) / (t : ℚ) * 100) := by
  simp only [updateJobProgress, hjob, if_pos ht, List.getLast?_concat, Option.map_some']

/-! ### Lookup preservation through the mutators, for chaining -/

theorem setJobStatus_lookup_isSome (st : JobQueueState) (id : String) (s : JobStatus)
    (e : String) (now : Nat)
    (h : (lookupJob st.jobs id).isSome) :
    (lookupJob (setJobStatus st id s e now).jobs id).isSome := by
  obtain ⟨job, hjob⟩ := Option.isSome_iff_exists.mp h
  simp [setJobStatus, hjob, lookupJob_insertJob_self]

theorem updateJobProgress_lookup_isSome (st : JobQueueState) (id : String) (p t : Int)
    (now : Nat)
    (h : (lookupJob st.jobs id).isSome) :
    (lookupJob (updateJobProgress st id p t now).jobs id).isSome := by
  obtain ⟨job, hjob⟩ := Option.isSome_iff_exists.mp h
  by_cases ht : 0 < t <;>
    simp [updateJobProgress, hjob, ht, lookupJob_insertJob_self]

theorem setTitleArtist_lookup_isSome (jobs : List (String × DownloadJob))
    (id title artist : String)
    (h : (lookupJob jobs id).isSome) :
    (lookupJob (setTitleArtist jobs id title artist) id).isSome := by
  obtain ⟨job, hjob⟩ := Option.isSome_iff_exists.mp h
  simp [setTitleArtist, hjob, lookupJob_insertJob_self]

/-- CancelJob never hands an event to the hub, in any of its branches. -/
theorem cancelJob_events (st : JobQueueState) (id : String) (now : Nat) :
    (cancelJob st id now).1.events = st.events := by
  cases h : lookupJob st.jobs id with
  | none => simp [cancelJob, h]
  | some job => by_cases hq : job.status = .queued <;> simp [cancelJob, h, hq]

/-! ### C2 -/

/-- C2 counterexample: "job1" is in the terminal state completed in exSt2,
yet SetJobStatus("job1", processing, "") moves its state to processing —
SetJobStatus has no terminal-state guard, so it is not a state no-op on
terminal jobs. -/
theorem setJobStatus_terminal_overwrite_cex :
    ((getJob exSt2 "job1").map DownloadJob.status = some JobStatus.completed)
  ∧ ((getJob (setJobStatus exSt2 "job1" .processing "" 2) "job1").map DownloadJob.status
      = some JobStatus.processing) := by
  constructor <;> decide

/-- C2 (amended): a job in a terminal state is preserved by CancelJob —
which returns false and leaves the whole state unchanged — and remains
queryable via GetJob and GetAllJobs; but SetJobStatus is not a state no-op
on a terminal job: it overwrites the job's state with its argument
unconditionally. -/
theorem terminal_jobs_amended (st : JobQueueState) (id : String) (now : Nat)
    (s : JobStatus) (e : String) (job : DownloadJob)
    (hjob : getJob st id = some job)
    (hterm : job.status = .completed ∨ job.status = .failed ∨ job.status = .cancelled) :
    ((cancelJob st id now).2 = false)
  ∧ ((cancelJob st id now).1 = st)
  ∧ (job ∈ getAllJobs st)
  ∧ ((getJob (setJobStatus st id s e now) id).map DownloadJob.status = some s) := by
  have hjob' : lookupJob st.jobs id = some job := hjob
  have hnq : ¬ job.status = .queued := by rcases hterm with h | h | h <;> simp [h]
  refine ⟨?_, ?_, lookup_mem_getAllJobs st id job hjob',
    setJobStatus_getJob_status st id s e now job hjob'⟩
  · simp [cancelJob, hjob', hnq]
  · simp [cancelJob, hjob', hnq]

/-- C2 witness: instantiated on the completed job of exSt2. -/
theorem terminal_jobs_amended_witness :
    ((cancelJob exSt2 "job1" 5).2 = false)
  ∧ ((cancelJob exSt2 "job1" 5).1 = exSt2)
  ∧ (exJob2 ∈ getAllJobs exSt2)
  ∧ ((getJob (setJobStatus exSt2 "job1" .processing "" 5) "job1").map DownloadJob.status
      = some JobStatus.processing) :=
  terminal_jobs_amended exSt2 "job1" 5 .processing "" exJob2 (by decide) (by decide)

/-! ### C3 -/

/-- C3: the code does not clamp — with an existing job (progress 0,
total 1), UpdateJobProgress("job1", 2, 1) hands the hub an event whose
percentage is 200 = 2/1*100, outside [0, 100]; this contradicts the
claimed clamp invariant (and the ProgressMessage field's own "0-100
percentage" documentation), exhibiting the missing clamp in the code. -/
theorem updateJobProgress_percentage_unclamped :
    ((updateJobProgress exSt1 "job1" 2 1 3).events.map ProgressMessage.progress = [200])
  ∧ ¬ ((200 : ℚ) ≤ 100) := by
  constructor
  · norm_num [exSt1, newJobQueue, addJob, updateJobProgress, lookupJob, insertJob]
  · norm_num

/-! ### C4 -/

/-- C4 counterexample: SetJobStatus(completed) emits an event whose kind
is the string "complete", not "completed" as the claim states. -/
theorem completed_event_kind_cex :
    ((setJobStatus exSt1 "job1" .completed "" 1).events.map ProgressMessage.type
      = ["complete"])
  ∧ ("complete" : String) ≠ "completed" := by
  constructor <;> decide

/-- C4 (amended): for SetJobStatus(id, s, e) on an existing job, the
emitted event's kind is "complete" (not "completed") with percentage
forced to 100 when s = completed, "error" carrying e as its message when
s = failed, and "status" for any other s. -/
theorem setJobStatus_event_kind (st : JobQueueState) (id : String) (s : JobStatus)
    (e : String) (now : Nat) (job : DownloadJob)
    (hjob : getJob st id = some job) :
    ((setJobStatus st id s e now).events.getLast?.map ProgressMessage.type
      = some (if s = .completed then "complete"
              else if s = .failed then "error" else "status"))
  ∧ (s = .completed →
      (setJobStatus st id s e now).events.getLast?.map ProgressMessage.progress = some 100)
  ∧ (s = .failed →
      (setJobStatus st id s e now).events.getLast?.map ProgressMessage.message = some e) := by
  have hjob' : lookupJob st.jobs id = some job := hjob
  refine ⟨setJobStatus_events_last_type st id s e now job hjob', ?_, ?_⟩
  · intro hs
    subst hs
    simpa using setJobStatus_events_last_progress st id .completed e now job hjob'
  · intro hs
    subst hs
    simpa using setJobStatus_events_last_message st id .failed e now job hjob'

/-- C4 witness: for the completed transition of "job1" the event kind is
"complete" with percentage 100. -/
theorem setJobStatus_event_kind_witness :
    ((setJobStatus exSt1 "job1" .completed "" 1).events.getLast?.map ProgressMessage.type
      = some "complete")
  ∧ ((setJobStatus exSt1 "job1" .completed "" 1).events.getLast?.map ProgressMessage.progress
      = some 100) := by
  have h := setJobStatus_event_kind exSt1 "job1" .completed "" 1 exJob1 (by decide)
  exact ⟨by simpa using h.1, h.2.1 rfl⟩

/-! ### C5 -/

/-- C5 counterexample: a successful CancelJob — which mutates the job's
state from queued to cancelled — hands no event to the hub. -/
theorem cancelJob_no_event_cex :
    ((cancelJob exSt1 "job1" 1).2 = true)
  ∧ ((cancelJob exSt1 "job1" 1).1.events = exSt1.events) := by
  constructor <;> decide

/-- C5 (amended): UpdateJobProgress (with positive total) and SetJobStatus
on an existing job each hand exactly one event, carrying that job's id, to
the Broadcast Hub — but CancelJob never does: even a successful
cancellation (queued → cancelled) emits nothing. -/
theorem broadcast_on_mutation (st : JobQueueState) (id : String) (p t : Int)
    (s : JobStatus) (e : String) (now : Nat) (job : DownloadJob)
    (hjob : getJob st id = some job) (ht : 0 < t) :
    ((cancelJob st id now).1.events = st.events)
  ∧ ((updateJobProgress st id p t now).events.length = st.events.length + 1)
  ∧ ((updateJobProgress st id p t now).events.getLast?.map ProgressMessage.jobID = some id)
  ∧ ((setJobStatus st id s e now).events.length = st.events.length + 1)
  ∧ ((setJobStatus st id s e now).events.getLast?.map ProgressMessage.jobID = some id) := by
  have hjob' : lookupJob st.jobs id = some job := hjob
  exact ⟨cancelJob_events st id now,
    updateJobProgress_events_length st id p t now job hjob' ht,
    updateJobProgress_events_last_jobID st id p t now job hjob' ht,
    setJobStatus_events_length st id s e now job hjob',
    setJobStatus_events_last_jobID st id s e now job hjob'⟩

/-- C5 witness: instantiated on the queued job of exSt1. -/
theorem broadcast_on_mutation_witness :
    ((cancelJob exSt1 "job1" 2).1.events = exSt1.events)
  ∧ ((updateJobProgress exSt1 "job1" 1 2 2).events.length = exSt1.events.length + 1)
  ∧ ((updateJobProgress exSt1 "job1" 1 2 2).events.getLast?.map ProgressMessage.jobID
      = some "job1")
  ∧ ((setJobStatus exSt1 "job1" .processing "" 2).events.length = exSt1.events.length + 1)
  ∧ ((setJobStatus exSt1 "job1" .processing "" 2).events.getLast?.map ProgressMessage.jobID
      = some "job1") :=
  broadcast_on_mutation exSt1 "job1" 1 2 .processing "" 2 exJob1 (by decide) (by decide)

/-! ### C6 -/

/-- A provider whose track resolution succeeds but whose retrieval fails
with "network unreachable". -/
def failAPI : ContentAPI :=
  { newTrack := fun _ => .ok { title := "T", artist := "A" }
    trackDownload := fun _ => .error "network unreachable"
    newAlbum := fun _ => .error "nope"
    albumDownload := fun _ => .error "nope"
    newArtist := fun _ => .error "nope"
    artistDownload := fun _ => .error "nope" }

/-- C6 counterexample: running the worker on the queued track job with a
provider failing with "network unreachable" leaves the job failed, but its
queryable error text is the wrapped "failed to download track: network
unreachable", not the verbatim provider message. -/
theorem provider_error_not_verbatim_cex :
    ((getJob (workerStep failAPI exSt1 "job1" 1) "job1").map DownloadJob.status
      = some JobStatus.failed)
  ∧ ((getJob (workerStep failAPI exSt1 "job1" 1) "job1").map DownloadJob.error
      = some "failed to download track: network unreachable")
  ∧ ("failed to download track: network unreachable" : String) ≠ "network unreachable" := by
  refine ⟨?_, ?_, ?_⟩ <;> decide

/-- C6 (amended): when the provider's track retrieval fails with message
m, the job reaches state failed and its queryable error text is
"failed to download track: " ++ m — the provider message wrapped with the
stage label, not m verbatim (resolution failures are wrapped with
"failed to get track metadata: " analogously) — and the corresponding
emitted event has kind "error" carrying that same wrapped text. -/
theorem workerStep_track_failure (api : ContentAPI) (st : JobQueueState)
    (id : String) (now : Nat) (job : DownloadJob) (t : Track) (m : String)
    (hjob : getJob st id = some job)
    (htype : job.type = .track)
    (hstat : job.status = .queued)
    (hres : api.newTrack job.itemID = .ok t)
    (hdl : api.trackDownload t = .error m) :
    ((getJob (workerStep api st id now) id).map DownloadJob.status = some JobStatus.failed)
  ∧ ((getJob (workerStep api st id now) id).map DownloadJob.error
      = some ("failed to download track: " ++ m))
  ∧ ((workerStep api st id now).events.getLast?.map ProgressMessage.type = some "error")
  ∧ ((workerStep api st id now).events.getLast?.map ProgressMessage.message
      = some ("failed to download track: " ++ m)) := by
  have hjob' : lookupJob st.jobs id = some job := hjob
  have hnc : ¬ job.status = JobStatus.cancelled := by simp [hstat]
  have hwrap : ("failed to download track: " ++ m) ≠ "" := by
    intro hcontra
    have := congrArg String.length hcontra
    simp [String.length_append] at this
    exact absurd this.1 (by decide)
  have h1 : (lookupJob (setJobStatus st id .processing "" now).jobs id).isSome :=
    setJobStatus_lookup_isSome st id .processing "" now (by simp [hjob'])
  have h2 : (lookupJob (setTitleArtist (setJobStatus st id .processing "" now).jobs
      id t.title t.artist) id).isSome :=
    setTitleArtist_lookup_isSome (setJobStatus st id .processing "" now).jobs
      id t.title t.artist h1
  have h3 : (lookupJob (updateJobProgress
      { setJobStatus st id .processing "" now with
        jobs := setTitleArtist (setJobStatus st id .processing "" now).jobs
          id t.title t.artist } id 0 1 now).jobs id).isSome :=
    updateJobProgress_lookup_isSome _ id 0 1 now h2
  obtain ⟨j3, hj3⟩ := Option.isSome_iff_exists.mp h3
  simp only [workerStep, hjob', htype, processTrackJob, hres, hdl, if_neg hnc]
  refine ⟨?_, ?_, ?_, ?_⟩
  · exact setJobStatus_getJob_status _ id .failed _ now j3 hj3
  · rw [setJobStatus_getJob_error _ id .failed _ now j3 hj3, if_neg hwrap]
  · rw [setJobStatus_events_last_type _ id .failed _ now j3 hj3]
    simp
  · rw [setJobStatus_events_last_message _ id .failed _ now j3 hj3]
    simp

/-- C6 witness: the amended theorem applied to the concrete failing
provider. -/
theorem workerStep_track_failure_witness :
    ((getJob (workerStep failAPI exSt1 "job1" 1) "job1").map DownloadJob.error
      = some ("failed to download track: " ++ "network unreachable"))
  ∧ ((workerStep failAPI exSt1 "job1" 1).events.getLast?.map ProgressMessage.type
      = some "error") := by
  have h := workerStep_track_failure failAPI exSt1 "job1" 1 exJob1
    { title := "T", artist := "A" } "network unreachable"
    (by decide) (by decide) (by decide) rfl rfl
  exact ⟨h.2.1, h.2.2.1⟩

/-! ### Broadcast Hub fan-out lemmas -/

theorem trySend_some (c : Client) (m : ProgressMessage) (c' : Client)
    (h : trySend c m = some c') :
    c' = { c with send := c.send ++ [m] } ∧ c.send.length < c.sendCap := by
  unfold trySend at h
  split_ifs at h with hr
  simp only [Option.some.injEq] at h
  exact ⟨h.symm, hr⟩

theorem deliverKey_keep_of_ne (cs : List Client) (key : String) (m : ProgressMessage)
    (c : Client) (hc : c ∈ cs) (hk : c.jobID ≠ key) :
    c ∈ (deliverKey cs key m).1 :=
  List.mem_filterMap.mpr ⟨c, hc, by simp [hk]⟩

theorem deliverKey_send_of_room (cs : List Client) (key : String) (m : ProgressMessage)
    (c : Client) (hc : c ∈ cs) (hk : c.jobID = key)
    (hroom : c.send.length < c.sendCap) :
    { c with send := c.send ++ [m] } ∈ (deliverKey cs key m).1 :=
  List.mem_filterMap.mpr ⟨c, hc, by simp [hk, trySend, hroom]⟩

theorem deliverKey_dropped (cs : List Client) (key : String) (m : ProgressMessage)
    (c : Client) (hc : c ∈ cs) (hk : c.jobID = key)
    (hfull : ¬ c.send.length < c.sendCap) :
    { c with closed := true } ∈ (deliverKey cs key m).2 :=
  List.mem_map_of_mem _ (List.mem_filter.mpr ⟨hc, by simp [hk, hfull]⟩)

theorem deliverKey_origin (cs : List Client) (key : String) (m : ProgressMessage)
    (c' : Client) (h : c' ∈ (deliverKey cs key m).1) :
    ∃ c0, c0 ∈ cs ∧
      ((c0.jobID ≠ key ∧ c' = c0)
        ∨ (c0.jobID = key ∧ c0.send.length < c0.sendCap
            ∧ c' = { c0 with send := c0.send ++ [m] })) := by
  obtain ⟨c0, hc0, hf⟩ := List.mem_filterMap.mp h
  by_cases hk : c0.jobID = key
  · rw [if_pos hk] at hf
    obtain ⟨hshape, hroom⟩ := trySend_some c0 m c' hf
    exact ⟨c0, hc0, Or.inr ⟨hk, hroom, hshape⟩⟩
  · rw [if_neg hk] at hf
    simp only [Option.some.injEq] at hf
    exact ⟨c0, hc0, Or.inl ⟨hk, hf.symm⟩⟩

theorem deliverKey_cid_sublist (cs : List Client) (key : String) (m : ProgressMessage) :
    ((deliverKey cs key m).1.map Client.cid).Sublist (cs.map Client.cid) := by
  induction cs with
  | nil => simp [deliverKey]
  | cons c rest ih =>
      by_cases hk : c.jobID = key
      · cases hts : trySend c m with
        | none =>
            simp only [deliverKey, List.filterMap_cons, hk, if_pos, hts] at ih ⊢
            exact ih.trans (List.sublist_cons_self _ _)
        | some c' =>
            have hcid : c'.cid = c.cid := by
              rw [(trySend_some c m c' hts).1]
            simp only [deliverKey, List.filterMap_cons, hk, if_pos, hts, List.map_cons,
              hcid] at ih ⊢
            exact ih.cons₂ _
      · simp only [deliverKey, List.filterMap_cons, hk, if_neg, ite_false,
          List.map_cons] at ih ⊢
        exact ih.cons₂ _

theorem deliverKey_removes (cs : List Client) (key : String) (m : ProgressMessage)
    (c : Client) (hnd : (cs.map Client.cid).Nodup) (hc : c ∈ cs)
    (hk : c.jobID = key) (hfull : ¬ c.send.length < c.sendCap) :
    ∀ c' ∈ (deliverKey cs key m).1, c'.cid ≠ c.cid := by
  intro c' hc' heq
  obtain ⟨c0, hc0, hcase⟩ := deliverKey_origin cs key m c' hc'
  have hcid : c0.cid = c.cid := by
    rcases hcase with ⟨_, rfl⟩ | ⟨_, _, rfl⟩
    · exact heq
    · exact heq
  have hc0c : c0 = c := List.inj_on_of_nodup_map hnd hc0 hc hcid
  subst hc0c
  rcases hcase with ⟨hne, _⟩ | ⟨_, hroom, _⟩
  · exact hne hk
  · exact hfull hroom

theorem deliverKey_cid_mem (cs : List Client) (key : String) (m : ProgressMessage)
    (c' : Client) (h : c' ∈ (deliverKey cs key m).1) :
    c'.cid ∈ cs.map Client.cid := by
  obtain ⟨c0, hc0, hcase⟩ := deliverKey_origin cs key m c' h
  have : c'.cid = c0.cid := by
    rcases hcase with ⟨_, rfl⟩ | ⟨_, _, rfl⟩ <;> rfl
  rw [this]
  exact List.mem_map_of_mem _ hc0

theorem fanOut_clients_eq (h : HubState) (m : ProgressMessage) :
    (fanOut h m).1.clients = (deliverKey (deliverKey h.clients m.jobID m).1 "all" m).1 := rfl

theorem fanOut_dropped_eq (h : HubState) (m : ProgressMessage) :
    (fanOut h m).2 = (deliverKey h.clients m.jobID m).2
      ++ (deliverKey (deliverKey h.clients m.jobID m).1 "all" m).2 := rfl

theorem fanOut_delivers (h : HubState) (m : ProgressMessage) (c : Client)
    (hm : m.jobID ≠ "all") (hc : c ∈ h.clients)
    (hmatch : c.jobID = m.jobID ∨ c.jobID = "all")
    (hroom : c.send.length < c.sendCap) :
    { c with send := c.send ++ [m] } ∈ (fanOut h m).1.clients := by
  rw [fanOut_clients_eq]
  rcases hmatch with hk | hk
  · have step1 := deliverKey_send_of_room h.clients m.jobID m c hc hk hroom
    exact deliverKey_keep_of_ne _ "all" m _ step1 (by simpa [hk] using hm)
  · have hne : c.jobID ≠ m.jobID := by
      rw [hk]
      exact fun hcontra => hm hcontra.symm
    have step1 := deliverKey_keep_of_ne h.clients m.jobID m c hc hne
    exact deliverKey_send_of_room _ "all" m c step1 hk hroom

theorem fanOut_keeps (h : HubState) (m : ProgressMessage) (c : Client)
    (hc : c ∈ h.clients) (h1 : c.jobID ≠ m.jobID) (h2 : c.jobID ≠ "all") :
    c ∈ (fanOut h m).1.clients := by
  rw [fanOut_clients_eq]
  exact deliverKey_keep_of_ne _ "all" m c
    (deliverKey_keep_of_ne h.clients m.jobID m c hc h1) h2

theorem fanOut_origin (h : HubState) (m : ProgressMessage) (c' : Client)
    (hm : m.jobID ≠ "all") (hc' : c' ∈ (fanOut h m).1.clients) :
    ∃ c0, c0 ∈ h.clients ∧
      (c' = c0 ∨ ((c0.jobID = m.jobID ∨ c0.jobID = "all")
        ∧ c' = { c0 with send := c0.send ++ [m] })) := by
  rw [fanOut_clients_eq] at hc'
  obtain ⟨c1, hc1, hcase1⟩ := deliverKey_origin _ "all" m c' hc'
  obtain ⟨c0, hc0, hcase0⟩ := deliverKey_origin h.clients m.jobID m c1 hc1
  rcases hcase0 with ⟨hk0, heq0⟩ | ⟨hk0, hroom0, heq0⟩
  · rcases hcase1 with ⟨hk1, heq1⟩ | ⟨hk1, hroom1, heq1⟩
    · exact ⟨c0, hc0, Or.inl (heq1.trans heq0)⟩
    · refine ⟨c0, hc0, Or.inr ⟨Or.inr (heq0 ▸ hk1), ?_⟩⟩
      rw [heq1, heq0]
  · rcases hcase1 with ⟨hk1, heq1⟩ | ⟨hk1, hroom1, heq1⟩
    · exact ⟨c0, hc0, Or.inr ⟨Or.inl hk0, heq1.trans heq0⟩⟩
    · have : c1.jobID = c0.jobID := by rw [heq0]
      rw [this, hk0] at hk1
      exact absurd hk1 hm

theorem fanOut_removes (h : HubState) (m : ProgressMessage) (c : Client)
    (hnd : (h.clients.map Client.cid).Nodup)
    (hc : c ∈ h.clients)
    (hmatch : c.jobID = m.jobID ∨ c.jobID = "all")
    (hfull : ¬ c.send.length < c.sendCap) :
    ∀ c' ∈ (fanOut h m).1.clients, c'.cid ≠ c.cid := by
  intro c' hc'
  rw [fanOut_clients_eq] at hc'
  by_cases hk : c.jobID = m.jobID
  · have hrem1 := deliverKey_removes h.clients m.jobID m c hnd hc hk hfull
    have hmem := deliverKey_cid_mem _ "all" m c' hc'
    obtain ⟨c1, hc1, hcid1⟩ := List.mem_map.mp hmem
    intro heq
    exact hrem1 c1 hc1 (by rw [hcid1, heq])
  · have hk' : c.jobID = "all" := by tauto
    have keep1 : c ∈ (deliverKey h.clients m.jobID m).1 :=
      deliverKey_keep_of_ne h.clients m.jobID m c hc hk
    have hnd1 : ((deliverKey h.clients m.jobID m).1.map Client.cid).Nodup :=
      List.Nodup.sublist (deliverKey_cid_sublist h.clients m.jobID m) hnd
    exact deliverKey_removes _ "all" m c hnd1 keep1 hk' hfull c' hc'

theorem fanOut_drops_closed (h : HubState) (m : ProgressMessage) (c : Client)
    (hc : c ∈ h.clients)
    (hmatch : c.jobID = m.jobID ∨ c.jobID = "all")
    (hfull : ¬ c.send.length < c.sendCap) :
    { c with closed := true } ∈ (fanOut h m).2 := by
  rw [fanOut_dropped_eq]
  by_cases hk : c.jobID = m.jobID
  · exact List.mem_append_left _ (deliverKey_dropped h.clients m.jobID m c hc hk hfull)
  · have hk' : c.jobID = "all" := by tauto
    have keep1 : c ∈ (deliverKey h.clients m.jobID m).1 :=
      deliverKey_keep_of_ne h.clients m.jobID m c hc hk
    exact List.mem_append_right _ (deliverKey_dropped _ "all" m c keep1 hk' hfull)

/-! ### Concrete hub states used by witnesses -/

/-- A roomy client subscribed to job "j". -/
def cJ : Client := { cid := 1, jobID := "j", send := [], sendCap := 256, closed := false }

/-- A roomy wildcard client. -/
def cAll : Client := { cid := 2, jobID := "all", send := [], sendCap := 256, closed := false }

/-- A roomy client subscribed to an unrelated job "k". -/
def cOther : Client := { cid := 3, jobID := "k", send := [], sendCap := 256, closed := false }

/-- A client for job "j" whose delivery queue is saturated. -/
def cFull : Client := { cid := 4, jobID := "j", send := [], sendCap := 0, closed := false }

/-- Hub registry with a job-scoped, a wildcard, and an unrelated client. -/
def exHub : HubState := { clients := [cJ, cAll, cOther] }

/-- Hub registry containing a saturated client. -/
def exHub2 : HubState := { clients := [cJ, cAll, cFull] }

/-- A progress event for job "j". -/
def exMsg : ProgressMessage :=
  { jobID := "j", type := "progress", progress := 50, status := "processing",
    currentFile := "", speed := "", message := "", timestamp := 0 }

/-! ### C7 -/

/-- C7: fan-out of event m routes m to exactly the connections registered
under m's job id or under the wildcard "all": a non-matching connection
passes through untouched; a matching connection with queue room has m
enqueued; and every connection present after the fan-out originates from a
registered connection, having gained m only if it was registered under one
of those two keys. -/
theorem fanOut_routing (h : HubState) (m : ProgressMessage) (c : Client)
    (hc : c ∈ h.clients) (hm : m.jobID ≠ "all") :
    ((c.jobID ≠ m.jobID ∧ c.jobID ≠ "all") → c ∈ (fanOut h m).1.clients)
  ∧ ((c.jobID = m.jobID ∨ c.jobID = "all") → c.send.length < c.sendCap →
      { c with send := c.send ++ [m] } ∈ (fanOut h m).1.clients)
  ∧ (∀ c' ∈ (fanOut h m).1.clients,
      ∃ c0, c0 ∈ h.clients ∧
        (c' = c0 ∨ ((c0.jobID = m.jobID ∨ c0.jobID = "all")
          ∧ c' = { c0 with send := c0.send ++ [m] }))) :=
  ⟨fun hne => fanOut_keeps h m c hc hne.1 hne.2,
   fun hmatch hroom => fanOut_delivers h m c hm hc hmatch hroom,
   fun c' hc' => fanOut_origin h m c' hm hc'⟩

/-- C7 witness: on a hub with a "j"-scoped, a wildcard, and a "k"-scoped
client, an event for job "j" reaches the first two and leaves the third
untouched. -/
theorem fanOut_routing_witness :
    (cOther ∈ (fanOut exHub exMsg).1.clients)
  ∧ ({ cJ with send := [exMsg] } ∈ (fanOut exHub exMsg).1.clients)
  ∧ ({ cAll with send := [exMsg] } ∈ (fanOut exHub exMsg).1.clients) := by
  have h1 := fanOut_routing exHub exMsg cOther (by decide) (by decide)
  have h2 := fanOut_routing exHub exMsg cJ (by decide) (by decide)
  have h3 := fanOut_routing exHub exMsg cAll (by decide) (by decide)
  exact ⟨h1.1 ⟨by decide, by decide⟩,
    h2.2.1 (Or.inl (by decide)) (by decide),
    h3.2.1 (Or.inr (by decide)) (by decide)⟩

/-! ### C8 -/

/-- C8: the fan-out enqueue is non-blocking: a matching connection whose
bounded queue is full is removed from the registry (no connection with its
identity remains, so it receives no further events) and handed back closed
with its queue unchanged — the event is not delivered to it — while every
other matching connection with room still receives the event in the same
fan-out. -/
theorem fanOut_slow_consumer (h : HubState) (m : ProgressMessage) (c : Client)
    (hnd : (h.clients.map Client.cid).Nodup)
    (hc : c ∈ h.clients)
    (hmatch : c.jobID = m.jobID ∨ c.jobID = "all")
    (hfull : ¬ c.send.length < c.sendCap)
    (hm : m.jobID ≠ "all") :
    (∀ c' ∈ (fanOut h m).1.clients, c'.cid ≠ c.cid)
  ∧ ({ c with closed := true } ∈ (fanOut h m).2)
  ∧ (∀ c2 ∈ h.clients, (c2.jobID = m.jobID ∨ c2.jobID = "all") →
      c2.send.length < c2.sendCap →
      { c2 with send := c2.send ++ [m] } ∈ (fanOut h m).1.clients) :=
  ⟨fanOut_removes h m c hnd hc hmatch hfull,
   fanOut_drops_closed h m c hc hmatch hfull,
   fun c2 hc2 hm2 hr2 => fanOut_delivers h m c2 hm hc2 hm2 hr2⟩

/-- C8 witness: the saturated client of exHub2 is dropped and closed while
the healthy "j"-scoped client still receives the event. -/
theorem fanOut_slow_consumer_witness :
    ({ cFull with closed := true } ∈ (fanOut exHub2 exMsg).2)
  ∧ ({ cJ with send := [exMsg] } ∈ (fanOut exHub2 exMsg).1.clients) := by
  have h := fanOut_slow_consumer exHub2 exMsg cFull (by decide) (by decide)
    (Or.inl (by decide)) (by decide) (by decide)
  exact ⟨h.2.1, h.2.2 cJ (by decide) (Or.inl (by decide)) (by decide)⟩

end Crescendo
